import Mathlib

/-!
Verification development for src/tpm2d/tpm2_commands.c, a TPM 2.0
command-orchestration layer.  The transport library (TSS_Execute and
friends) is an external collaborator; each operation is modelled as a
function of the device outcomes it can observe, returning its result
together with the trace of device interactions (session opens, session
flushes, commands sent).  C strings are modelled as lists of byte
values, machine integers as Nat with explicit 32-bit masking where the
code manipulates uint32_t bitmasks.
-/

/-! ## Algorithm and attribute constants (TPM 2.0 Part 2 values, as used
by the tss2 headers included from tpm2_commands.c) -/

def TPM_ALG_RSA : Nat := 0x0001
def TPM_ALG_SHA1 : Nat := 0x0004
def TPM_ALG_AES : Nat := 0x0006
def TPM_ALG_SHA256 : Nat := 0x000B
def TPM_ALG_SHA384 : Nat := 0x000C
def TPM_ALG_NULL : Nat := 0x0010
def TPM_ALG_RSASSA : Nat := 0x0014
def TPM_ALG_ECDSA : Nat := 0x0018
def TPM_ALG_ECC : Nat := 0x0023
def TPM_ALG_CFB : Nat := 0x0043

def TPMA_OBJECT_FIXEDTPM : Nat := 0x00000002
def TPMA_OBJECT_FIXEDPARENT : Nat := 0x00000010
def TPMA_OBJECT_SENSITIVEDATAORIGIN : Nat := 0x00000020
def TPMA_OBJECT_USERWITHAUTH : Nat := 0x00000040
def TPMA_OBJECT_ADMINWITHPOLICY : Nat := 0x00000080
def TPMA_OBJECT_NODA : Nat := 0x00000400
def TPMA_OBJECT_RESTRICTED : Nat := 0x00010000
def TPMA_OBJECT_DECRYPT : Nat := 0x00020000
def TPMA_OBJECT_SIGN : Nat := 0x00040000

def TPM_HT_NV_INDEX : Nat := 0x01

def TPM_RC_SUCCESS : Nat := 0

/-- Error code of the external TSS library (tssresponsecode.h, not part of
src/); the claims depend only on it being a fixed nonzero code. -/
def TSS_RC_INSUFFICIENT_BUFFER : Nat := 0x0b0001

/-- Error code of the external TSS library (tssresponsecode.h, not part of
src/); the claims depend only on it being a fixed nonzero code. -/
def TSS_RC_BAD_HANDLE_NUMBER : Nat := 0x0b0002

/-- Modelled from the spec: the build-time fixed hash algorithm
(TPM2D_HASH_ALGORITHM in tpm2d.h, which is not under src/); the spec fixes
one hash algorithm per build, its identity is irrelevant to every claim. -/
def TPM2D_HASH_ALGORITHM : Nat := TPM_ALG_SHA256

/-- Modelled from the spec: the build-time fixed ECC curve
(TPM2D_CURVE_ID in tpm2d.h, which is not under src/); its identity is
irrelevant to every claim. -/
def TPM2D_CURVE_ID : Nat := 0x0003

/-- Size in bytes of the TPMT_HA structure of the external TSS library,
used as the capacity bound of TSS_TPM2B_Create for the qualifying data;
the exact value is irrelevant to every claim. -/
def sizeof_TPMT_HA : Nat := 66

/-- Size in bytes of the TPMU_HA union of the external TSS library, used
as the capacity bound of TSS_TPM2B_StringCopy for passwords; the exact
value is irrelevant to every claim. -/
def sizeof_TPMU_HA : Nat := 64

/-- All 32 bits set; uint32_t complement x is modelled as mask32 XOR x. -/
def mask32 : Nat := 0xFFFFFFFF

/-- Clearing a named attribute bit, the C idiom val AND NOT mask on a
uint32_t value. -/
def clr32 (v m : Nat) : Nat := v &&& (mask32 ^^^ m)

/-! ## Encoding utilities (convert_bin_to_hex_new, convert_hex_to_bin_new,
src/tpm2d/tpm2_commands.c lines 71-110).  C chars are byte values. -/

/-- Lowercase hex digit character (byte value) of a nibble, as produced by
the snprintf %.2x conversion in convert_bin_to_hex_new. -/
def hexDigitChar (n : Nat) : Nat :=
  if n < 10 then 48 + n else 87 + n

/-- Models convert_bin_to_hex_new (lines 71-82): each byte becomes two
lowercase hex digit characters. -/
def convert_bin_to_hex_new : List Nat → List Nat
  | [] => []
  | b :: rest =>
      hexDigitChar (b / 16) :: hexDigitChar (b % 16) :: convert_bin_to_hex_new rest

/-- Value of one hex digit character as accepted by the sscanf %hhx
conversions in convert_hex_to_bin_new: decimal digits, lowercase and
uppercase hex letters. -/
def hexDigitVal (c : Nat) : Option Nat :=
  if 48 ≤ c ∧ c ≤ 57 then some (c - 48)
  else if 97 ≤ c ∧ c ≤ 102 then some (c - 87)
  else if 65 ≤ c ∧ c ≤ 70 then some (c - 55)
  else none

/-- Pair loop of convert_hex_to_bin_new (lines 100-103): each two-digit
group %2hhx becomes one byte; a trailing single digit is read as one
nibble (unreachable from the wrapper, which pads odd lengths first). -/
def hexPairsToBin : List Nat → Option (List Nat)
  | [] => some []
  | c1 :: c2 :: rest => do
      let h ← hexDigitVal c1
      let l ← hexDigitVal c2
      let r ← hexPairsToBin rest
      pure ((16 * h + l) :: r)
  | [c] => (hexDigitVal c).map (fun h => [h])

/-- Models convert_hex_to_bin_new (lines 84-110): odd-length input decodes
its first character as a single implicit-leading-zero nibble, then the
remaining characters pairwise; any non-hex character makes the whole
conversion fail (NULL return, modelled as none). -/
def convert_hex_to_bin_new (hex : List Nat) : Option (List Nat) :=
  if hex.length % 2 = 1 then
    match hex with
    | [] => none
    | c :: rest => do
        let h ← hexDigitVal c
        let r ← hexPairsToBin rest
        pure (h :: r)
  else hexPairsToBin hex

/-- Characters (byte values) that convert_bin_to_hex_new can produce:
decimal digits and lowercase hex letters. -/
def isLowerHexDigit (c : Nat) : Prop :=
  (48 ≤ c ∧ c ≤ 57) ∨ (97 ≤ c ∧ c ≤ 102)

instance (c : Nat) : Decidable (isLowerHexDigit c) := by
  unfold isLowerHexDigit; infer_instance

/-- Byte values of the characters of a string literal. -/
def ascii (s : String) : List Nat := s.toList.map Char.toNat

/-- Models halg_id_to_string_new (lines 113-126). -/
def halg_id_to_string_new (alg_id : Nat) : List Nat :=
  if alg_id = TPM_ALG_SHA1 then ascii "TPM_ALG_SHA1"
  else if alg_id = TPM_ALG_SHA256 then ascii "TPM_ALG_SHA256"
  else if alg_id = TPM_ALG_SHA384 then ascii "TPM_ALG_SHA384"
  else ascii "NONE"

/-! ## Device-interaction events.  Each operation returns, besides its
result, the ordered trace of its interactions with the device: sessions
opened (successful TPM_CC_StartAuthSession), sessions flushed
(TPM_CC_FlushContext issued), and the guarded commands sent. -/

inductive Ev where
  | sessionOpen
  | sessionFlush
  | cmdGetRandom
  | cmdGetCapability
  | cmdNvReadPublic
  | cmdNvDefineSpace
  | cmdNvWrite
  | cmdNvRead
  | cmdQuote (pcrSelect : List Nat)
deriving DecidableEq, BEq

/-! ## Key template builder (tpm2_fill_rsa_details, tpm2_fill_ecc_details,
tpm2_public_area_helper, lines 335-474).  The spec fixes the key classes
as a closed four-member enumeration (tpm2d_key_type_t of tpm2d.h). -/

inductive Tpm2dKeyType where
  | storage_u
  | storage_r
  | signing_u
  | signing_r
deriving DecidableEq

/-- Signing key classes (TPM2D_KEY_TYPE_SIGNING_U, TPM2D_KEY_TYPE_SIGNING_R). -/
def isSigningKey : Tpm2dKeyType → Bool
  | .signing_u | .signing_r => true
  | _ => false

/-- Restricted key classes (the two R variants). -/
def isRestrictedKey : Tpm2dKeyType → Bool
  | .storage_r | .signing_r => true
  | _ => false

/-- Storage key classes (TPM2D_KEY_TYPE_STORAGE_U, TPM2D_KEY_TYPE_STORAGE_R). -/
def isStorageKey : Tpm2dKeyType → Bool
  | .storage_u | .storage_r => true
  | _ => false

/-- RSA branch of the TPMU_PUBLIC_PARMS union (rsaDetail) with the fields
tpm2_fill_rsa_details touches. -/
structure RsaDetail where
  symAlgorithm : Nat
  symKeyBits : Nat
  symMode : Nat
  scheme : Nat
  schemeHashAlg : Nat
  keyBits : Nat
  exponent : Nat
deriving DecidableEq

/-- ECC branch of the TPMU_PUBLIC_PARMS union (eccDetail) with the fields
tpm2_fill_ecc_details touches. -/
structure EccDetail where
  symAlgorithm : Nat
  symKeyBits : Nat
  symMode : Nat
  scheme : Nat
  schemeHashAlg : Nat
  curveID : Nat
  kdfScheme : Nat
  kdfHashAlg : Nat
deriving DecidableEq

/-- All-zero initial rsaDetail contents (fields the C code leaves
untouched keep their incoming value; a concrete zero start is used for
closed evaluations). -/
def rsaDetail0 : RsaDetail := ⟨0, 0, 0, 0, 0, 0, 0⟩

/-- All-zero initial eccDetail contents. -/
def eccDetail0 : EccDetail := ⟨0, 0, 0, 0, 0, 0, 0, 0⟩

/-- Models tpm2_fill_rsa_details (lines 335-371); the incoming detail d
stands for the fields the function does not assign.  The four spec key
classes are all supported, so the default error branch is unreachable. -/
def tpm2_fill_rsa_details (d : RsaDetail) (key_type : Tpm2dKeyType) : RsaDetail :=
  let d := { d with keyBits := 2048, exponent := 0 }
  match key_type with
  | .storage_u => { d with symAlgorithm := TPM_ALG_NULL, scheme := TPM_ALG_NULL }
  | .storage_r =>
      { d with symAlgorithm := TPM_ALG_AES, symKeyBits := 128, symMode := TPM_ALG_CFB,
               scheme := TPM_ALG_NULL }
  | .signing_u => { d with symAlgorithm := TPM_ALG_NULL, scheme := TPM_ALG_NULL }
  | .signing_r =>
      { d with symAlgorithm := TPM_ALG_NULL, scheme := TPM_ALG_RSASSA,
               schemeHashAlg := TPM2D_HASH_ALGORITHM }

/-- Models tpm2_fill_ecc_details (lines 373-416). -/
def tpm2_fill_ecc_details (d : EccDetail) (key_type : Tpm2dKeyType) : EccDetail :=
  match key_type with
  | .signing_u =>
      { d with symAlgorithm := TPM_ALG_NULL, scheme := TPM_ALG_NULL,
               curveID := TPM2D_CURVE_ID, kdfScheme := TPM_ALG_NULL }
  | .signing_r =>
      { d with symAlgorithm := TPM_ALG_NULL, scheme := TPM_ALG_ECDSA,
               schemeHashAlg := TPM2D_HASH_ALGORITHM, kdfHashAlg := TPM2D_HASH_ALGORITHM,
               curveID := TPM2D_CURVE_ID, kdfScheme := TPM_ALG_NULL }
  | .storage_u | .storage_r =>
      { d with symAlgorithm := TPM_ALG_AES, symKeyBits := 128, symMode := TPM_ALG_CFB,
               scheme := TPM_ALG_NULL, schemeHashAlg := 0,
               curveID := TPM2D_CURVE_ID, kdfScheme := TPM_ALG_NULL, kdfHashAlg := 0 }

/-- TPMT_PUBLIC as assembled by tpm2_public_area_helper; params holds the
branch of the parameters union that the build-time asymmetric algorithm
selects. -/
structure PublicArea where
  type : Nat
  nameAlg : Nat
  objectAttributes : Nat
  authPolicySize : Nat
  params : Sum RsaDetail EccDetail
deriving DecidableEq

/-- Models tpm2_public_area_helper (lines 418-474).  The build-time
constant TPM2D_ASYM_ALGORITHM (tpm2d.h, not under src/) is passed as the
asym argument so that both build variants are covered.  The incoming
object_attrs value is the caller-supplied uint32_t bitmask. -/
def tpm2_public_area_helper (asym object_attrs : Nat) (key_type : Tpm2dKeyType)
    (rsa0 : RsaDetail) (ecc0 : EccDetail) : PublicArea :=
  let a := object_attrs
  let a := a ||| TPMA_OBJECT_SENSITIVEDATAORIGIN
  let a := a ||| TPMA_OBJECT_USERWITHAUTH
  let a := clr32 a TPMA_OBJECT_ADMINWITHPOLICY
  let a :=
    match key_type with
    | .storage_u => clr32 (clr32 a TPMA_OBJECT_SIGN ||| TPMA_OBJECT_DECRYPT) TPMA_OBJECT_RESTRICTED
    | .storage_r => (clr32 a TPMA_OBJECT_SIGN ||| TPMA_OBJECT_DECRYPT) ||| TPMA_OBJECT_RESTRICTED
    | .signing_u => clr32 (clr32 (a ||| TPMA_OBJECT_SIGN) TPMA_OBJECT_DECRYPT) TPMA_OBJECT_RESTRICTED
    | .signing_r => (clr32 (a ||| TPMA_OBJECT_SIGN) TPMA_OBJECT_DECRYPT) ||| TPMA_OBJECT_RESTRICTED
  { type := asym
    nameAlg := TPM2D_HASH_ALGORITHM
    objectAttributes := a
    authPolicySize := 0
    params :=
      if asym = TPM_ALG_RSA then .inl (tpm2_fill_rsa_details rsa0 key_type)
      else .inr (tpm2_fill_ecc_details ecc0 key_type) }

/-- The object_attrs value built by tpm2_createprimary_asym before it
calls tpm2_public_area_helper (lines 489-498), in source order. -/
def tpm2_createprimary_object_attrs : Nat :=
  let v := 0
  let v := v ||| TPMA_OBJECT_NODA
  let v := v ||| TPMA_OBJECT_SENSITIVEDATAORIGIN
  let v := v ||| TPMA_OBJECT_USERWITHAUTH
  let v := clr32 v TPMA_OBJECT_ADMINWITHPOLICY
  let v := v ||| TPMA_OBJECT_RESTRICTED
  let v := v ||| TPMA_OBJECT_DECRYPT
  let v := clr32 v TPMA_OBJECT_SIGN
  let v := v ||| TPMA_OBJECT_FIXEDTPM
  let v := v ||| TPMA_OBJECT_FIXEDPARENT
  v

/-- The public area that tpm2_createprimary_asym (lines 476-547) sends in
its CreatePrimary template: the primary attribute seed passed through
tpm2_public_area_helper. -/
def tpm2_createprimary_public_area (asym : Nat) (key_type : Tpm2dKeyType)
    (rsa0 : RsaDetail) (ecc0 : EccDetail) : PublicArea :=
  tpm2_public_area_helper asym tpm2_createprimary_object_attrs key_type rsa0 ecc0

/-! ## Quote engine (tpm2_quote_new, lines 750-842). -/

/-- The PCR selection bitmap built by the loop at lines 768-774: three
zero bytes, then pcr_indices iterations each of which ORs bit
(pcr_indices mod 8) into byte (pcr_indices div 8) - the loop body uses
the count pcr_indices, never the loop variable. -/
def quote_pcrselect (pcr_indices : Nat) : List Nat :=
  let init := [0, 0, 0]
  (List.range pcr_indices).foldl
    (fun sel _i =>
      sel.set (pcr_indices / 8) (sel.getD (pcr_indices / 8) 0 ||| (1 <<< (pcr_indices % 8))))
    init

/-- Whether PCR register r is selected in a selection bitmap: bit
(r mod 8) of byte (r div 8). -/
def pcrSelected (sel : List Nat) (r : Nat) : Bool :=
  (sel.getD (r / 8) 0).testBit (r % 8)

/-- Device outcomes observable by tpm2_quote_new: the Quote command's
response code, the attestationData bytes of a successful response, the
external TPMS_ATTEST_Unmarshal parser (returning the extraData field on
success), and the externally marshalled signature hex. -/
structure QuoteDevice where
  quoteRc : Nat
  quoted : List Nat
  unmarshal : List Nat → Option (List Nat)
  signatureHex : Option (List Nat)

/-- Result strings of a successful quote (tpm2d_quote_string_t). -/
structure QuoteStrings where
  halg_str : List Nat
  quoted_str : List Nat
  signature_str : Option (List Nat)
deriving DecidableEq

/-- Binary qualifying data sent with the quote: a NULL argument becomes
the empty buffer (size 0), otherwise the hex string is converted with
convert_hex_to_bin_new (lines 789-797). -/
def qualifyingBin : Option (List Nat) → Option (List Nat)
  | none => some []
  | some hex => convert_hex_to_bin_new hex

/-- Models tpm2_quote_new (lines 750-842).  Returns the quote strings (or
none for the NULL error return) and the trace of device interactions; the
cmdQuote event carries the PCR selection sent.  Password authorization
(TPM_RS_PW) is used, so no authorization session is ever opened. -/
def tpm2_quote_new (dev : QuoteDevice) (pcr_indices : Nat)
    (qualifying_data : Option (List Nat)) : Option QuoteStrings × List Ev :=
  if pcr_indices > 23 then (none, [])
  else
    let sel := quote_pcrselect pcr_indices
    match qualifyingBin qualifying_data with
    | none => (none, [])
    | some qbin =>
      if sizeof_TPMT_HA < qbin.length then (none, [])
      else if dev.quoteRc ≠ TPM_RC_SUCCESS then (none, [.cmdQuote sel])
      else
        match dev.unmarshal dev.quoted with
        | none => (none, [.cmdQuote sel])
        | some extra =>
          if qbin = extra then
            (some { halg_str := halg_id_to_string_new TPM2D_HASH_ALGORITHM
                    quoted_str := convert_bin_to_hex_new dev.quoted
                    signature_str := dev.signatureHex },
             [.cmdQuote sel])
          else (none, [.cmdQuote sel])

/-! ## Random generator (tpm2_getrandom_new, lines 1008-1055). -/

/-- Device outcomes observable by tpm2_getrandom_new: the
StartAuthSession response code, the GetRandom response (code and bytes)
per call index and requested count, and the FlushContext response code. -/
structure RandDevice where
  startRc : Nat
  getRandom : Nat → Nat → Nat × List Nat
  flushRc : Nat

/-- The do-while accumulation loop of tpm2_getrandom_new (lines
1024-1034), with fuel bounding the number of GetRandom commands; none
means the fuel was exhausted before the loop exited.  Arguments after the
fuel: call index, bytes received so far, buffer contents. -/
def tpm2_getrandom_go (dev : RandDevice) (rand_length : Nat) :
    Nat → Nat → Nat → List Nat → Option (Nat × List Nat × List Ev)
  | 0, _, _, _ => none
  | fuel + 1, k, recv, buf =>
    let r := dev.getRandom k (rand_length - recv)
    if r.1 ≠ TPM_RC_SUCCESS then some (r.1, buf, [.cmdGetRandom])
    else
      let buf' := buf ++ r.2
      let recv' := recv + r.2.length
      if recv' < rand_length then
        match tpm2_getrandom_go dev rand_length fuel (k + 1) recv' buf' with
        | none => none
        | some (rc, b, evs) => some (rc, b, .cmdGetRandom :: evs)
      else some (TPM_RC_SUCCESS, buf', [.cmdGetRandom])

/-- Models tpm2_getrandom_new (lines 1008-1055): opens an HMAC session,
runs the accumulation loop, and - only on the success path - flushes the
session before returning the buffer; on a failed GetRandom it frees the
buffer and returns NULL without flushing.  none means the loop fuel was
exhausted. -/
def tpm2_getrandom_new (dev : RandDevice) (rand_length fuel : Nat) :
    Option (Option (List Nat) × List Ev) :=
  if dev.startRc ≠ TPM_RC_SUCCESS then some (none, [])
  else
    match tpm2_getrandom_go dev rand_length fuel 0 0 [] with
    | none => none
    | some (rc, buf, evs) =>
      if rc ≠ TPM_RC_SUCCESS then some (none, .sessionOpen :: evs)
      else some (some buf, .sessionOpen :: (evs ++ [.sessionFlush]))

/-! ## NV storage engine (lines 1057-1312). -/

/-- Models tpm2_nv_get_max_buffer_size (lines 1089-1119) given the
GetCapability response code and the advertised TPM_PT_NV_BUFFER_MAX
property (none when the response carries no matching property): any
failure falls back to the 512-byte default. -/
def tpm2_nv_get_max_buffer_size (getCapRc : Nat) (getCapVal : Option Nat) : Nat :=
  if getCapRc ≠ TPM_RC_SUCCESS then 512
  else match getCapVal with
    | some v => v
    | none => 512

/-- TSS_TPM2B_StringCopy of the NV password fails when the password
exceeds the sizeof(TPMU_HA) capacity (lines 1137-1141). -/
def nvPwdTooLong : Option (List Nat) → Bool
  | none => false
  | some p => decide (p.length > sizeof_TPMU_HA)

/-- Device outcomes observable by tpm2_nv_definespace. -/
structure NvDefineDevice where
  startRc : Nat
  defineRc : Nat
  flushRc : Nat
deriving DecidableEq

/-- Models tpm2_nv_definespace (lines 1121-1188): handle-tag check,
password copy, session open, NV_DefineSpace bracketed by exactly one
flush, with the define error preferred over a flush error. -/
def tpm2_nv_definespace (dev : NvDefineDevice) (nv_index_handle : Nat)
    (nv_pwd : Option (List Nat)) : Nat × List Ev :=
  if nv_index_handle >>> 24 ≠ TPM_HT_NV_INDEX then (TSS_RC_BAD_HANDLE_NUMBER, [])
  else if nvPwdTooLong nv_pwd then (TSS_RC_INSUFFICIENT_BUFFER, [])
  else if dev.startRc ≠ TPM_RC_SUCCESS then (dev.startRc, [])
  else if dev.defineRc ≠ TPM_RC_SUCCESS then
    (dev.defineRc, [.sessionOpen, .cmdNvDefineSpace, .sessionFlush])
  else (dev.flushRc, [.sessionOpen, .cmdNvDefineSpace, .sessionFlush])

/-- Device outcomes observable by tpm2_nv_write. -/
structure NvWriteDevice where
  getCapRc : Nat
  getCapVal : Option Nat
  startRc : Nat
  writeRc : Nat
  flushRc : Nat
deriving DecidableEq

/-- Models tpm2_nv_write (lines 1190-1240): handle-tag check, then the
GetCapability query for the maximum transfer size, the single-chunk
capacity check, session open, NV_Write bracketed by exactly one flush,
with the write error preferred over a flush error. -/
def tpm2_nv_write (dev : NvWriteDevice) (nv_index_handle : Nat)
    (data_length : Nat) : Nat × List Ev :=
  if nv_index_handle >>> 24 ≠ TPM_HT_NV_INDEX then (TSS_RC_BAD_HANDLE_NUMBER, [])
  else
    let buffer_max := tpm2_nv_get_max_buffer_size dev.getCapRc dev.getCapVal
    if data_length > buffer_max then (TSS_RC_INSUFFICIENT_BUFFER, [.cmdGetCapability])
    else if dev.startRc ≠ TPM_RC_SUCCESS then (dev.startRc, [.cmdGetCapability])
    else if dev.writeRc ≠ TPM_RC_SUCCESS then
      (dev.writeRc, [.cmdGetCapability, .sessionOpen, .cmdNvWrite, .sessionFlush])
    else (dev.flushRc, [.cmdGetCapability, .sessionOpen, .cmdNvWrite, .sessionFlush])

/-- Device outcomes observable by tpm2_nv_read. -/
structure NvReadDevice where
  readPubRc : Nat
  readPubOrdinary : Bool
  readPubDataSize : Nat
  getCapRc : Nat
  getCapVal : Option Nat
  startRc : Nat
  readRc : Nat
  readData : List Nat
  flushRc : Nat

/-- Models tpm2_nv_get_data_size (lines 1057-1087): a bad handle tag
yields (size_t)-1, a failed NV_ReadPublic yields 0, a non-ordinary index
yields 0, otherwise the declared data size. -/
def tpm2_nv_get_data_size (dev : NvReadDevice) (nv_index_handle : Nat) : Nat :=
  if nv_index_handle >>> 24 ≠ TPM_HT_NV_INDEX then 2 ^ 64 - 1
  else if dev.readPubRc ≠ TPM_RC_SUCCESS then 0
  else if dev.readPubOrdinary then dev.readPubDataSize
  else 0

/-- Models tpm2_nv_read (lines 1242-1312): handle-tag check, data-size and
max-buffer queries, the two capacity checks, session open, NV_Read with a
flush on both the failure and the success continuation, the read error
preferred over a flush error.  Returns the response code, the bytes
written to the caller's buffer (none when the buffer is untouched), and
the trace. -/
def tpm2_nv_read (dev : NvReadDevice) (nv_index_handle : Nat)
    (out_length : Nat) : Nat × Option (List Nat) × List Ev :=
  if nv_index_handle >>> 24 ≠ TPM_HT_NV_INDEX then (TSS_RC_BAD_HANDLE_NUMBER, none, [])
  else
    let data_size := tpm2_nv_get_data_size dev nv_index_handle
    let buffer_max := tpm2_nv_get_max_buffer_size dev.getCapRc dev.getCapVal
    let evq : List Ev := [.cmdNvReadPublic, .cmdGetCapability]
    if data_size > buffer_max then (TSS_RC_INSUFFICIENT_BUFFER, none, evq)
    else if data_size > out_length then (TSS_RC_INSUFFICIENT_BUFFER, none, evq)
    else if dev.startRc ≠ TPM_RC_SUCCESS then (dev.startRc, none, evq)
    else if dev.readRc ≠ TPM_RC_SUCCESS then
      (dev.readRc, none, evq ++ [.sessionOpen, .cmdNvRead, .sessionFlush])
    else (dev.flushRc, some dev.readData, evq ++ [.sessionOpen, .cmdNvRead, .sessionFlush])

/-! ## Ground bit facts about the attribute constants, used to evaluate
the sign (18), decrypt (17) and restricted (16) bits of symbolically
manipulated attribute words. -/

theorem testBit_attr_constants :
    (Nat.testBit TPMA_OBJECT_SENSITIVEDATAORIGIN 18 = false) ∧
    (Nat.testBit TPMA_OBJECT_SENSITIVEDATAORIGIN 17 = false) ∧
    (Nat.testBit TPMA_OBJECT_SENSITIVEDATAORIGIN 16 = false) ∧
    (Nat.testBit TPMA_OBJECT_USERWITHAUTH 18 = false) ∧
    (Nat.testBit TPMA_OBJECT_USERWITHAUTH 17 = false) ∧
    (Nat.testBit TPMA_OBJECT_USERWITHAUTH 16 = false) ∧
    (Nat.testBit TPMA_OBJECT_SIGN 18 = true) ∧
    (Nat.testBit TPMA_OBJECT_SIGN 17 = false) ∧
    (Nat.testBit TPMA_OBJECT_SIGN 16 = false) ∧
    (Nat.testBit TPMA_OBJECT_DECRYPT 18 = false) ∧
    (Nat.testBit TPMA_OBJECT_DECRYPT 17 = true) ∧
    (Nat.testBit TPMA_OBJECT_DECRYPT 16 = false) ∧
    (Nat.testBit TPMA_OBJECT_RESTRICTED 18 = false) ∧
    (Nat.testBit TPMA_OBJECT_RESTRICTED 17 = false) ∧
    (Nat.testBit TPMA_OBJECT_RESTRICTED 16 = true) ∧
    (Nat.testBit TPMA_OBJECT_ADMINWITHPOLICY 18 = false) ∧
    (Nat.testBit TPMA_OBJECT_ADMINWITHPOLICY 17 = false) ∧
    (Nat.testBit TPMA_OBJECT_ADMINWITHPOLICY 16 = false) ∧
    (Nat.testBit mask32 18 = true) ∧
    (Nat.testBit mask32 17 = true) ∧
    (Nat.testBit mask32 16 = true) ∧
    (Nat.testBit (mask32 ^^^ TPMA_OBJECT_ADMINWITHPOLICY) 18 = true) ∧
    (Nat.testBit (mask32 ^^^ TPMA_OBJECT_ADMINWITHPOLICY) 17 = true) ∧
    (Nat.testBit (mask32 ^^^ TPMA_OBJECT_ADMINWITHPOLICY) 16 = true) ∧
    (Nat.testBit (mask32 ^^^ TPMA_OBJECT_SIGN) 18 = false) ∧
    (Nat.testBit (mask32 ^^^ TPMA_OBJECT_SIGN) 17 = true) ∧
    (Nat.testBit (mask32 ^^^ TPMA_OBJECT_SIGN) 16 = true) ∧
    (Nat.testBit (mask32 ^^^ TPMA_OBJECT_DECRYPT) 18 = true) ∧
    (Nat.testBit (mask32 ^^^ TPMA_OBJECT_DECRYPT) 17 = false) ∧
    (Nat.testBit (mask32 ^^^ TPMA_OBJECT_DECRYPT) 16 = true) ∧
    (Nat.testBit (mask32 ^^^ TPMA_OBJECT_RESTRICTED) 18 = true) ∧
    (Nat.testBit (mask32 ^^^ TPMA_OBJECT_RESTRICTED) 17 = true) ∧
    (Nat.testBit (mask32 ^^^ TPMA_OBJECT_RESTRICTED) 16 = false) := by
  decide

/-- C1: the claim states that every operation opening an authorization
session flushes it exactly once on every exit path, in particular that
tpm2_getrandom_new flushes even when the guarded GetRandom command fails.
The code violates this: with a device whose GetRandom command fails
(response code 0x101) after a successful session open, tpm2_getrandom_new
returns the NULL result with a trace containing one session open and no
session flush - the session leaks (the flush at line 1051 is only reached
on the success path). -/
theorem getrandom_session_leak_on_failed_command :
    tpm2_getrandom_new ⟨TPM_RC_SUCCESS, fun _ _ => (0x101, []), TPM_RC_SUCCESS⟩ 1 1
      = some (none, [Ev.sessionOpen, Ev.cmdGetRandom]) ∧
    ([Ev.sessionOpen, Ev.cmdGetRandom].count Ev.sessionOpen = 1) ∧
    ([Ev.sessionOpen, Ev.cmdGetRandom].count Ev.sessionFlush = 0) := by
  refine ⟨rfl, rfl, rfl⟩

/-- C2 counterexample: the claim states the template carries a non-null
symmetric sub-block iff the class is restricted, for both detail blocks.
The signing-restricted class is restricted (bit 16 set by the helper) yet
its RSA detail block carries the null symmetric algorithm, and the
storage-unrestricted class is unrestricted yet its ECC detail block
carries AES. -/
theorem template_symmetric_iff_restricted_refuted :
    isRestrictedKey .signing_r = true ∧
    (tpm2_fill_rsa_details rsaDetail0 .signing_r).symAlgorithm = TPM_ALG_NULL ∧
    Nat.testBit (tpm2_public_area_helper TPM_ALG_RSA 0 .signing_r rsaDetail0
        eccDetail0).objectAttributes 16 = true ∧
    isRestrictedKey .storage_u = false ∧
    (tpm2_fill_ecc_details eccDetail0 .storage_u).symAlgorithm = TPM_ALG_AES ∧
    TPM_ALG_AES ≠ TPM_ALG_NULL := by
  decide

/-- C2 (amended): for every key class and every incoming attribute word,
the built template sets exactly one of sign (bit 18) and decrypt (bit 17)
- sign for signing classes, decrypt for storage classes - and sets
restricted (bit 16) iff the class is a restricted variant; the RSA detail
block carries a non-null symmetric algorithm exactly for the
storage-restricted class, and the ECC detail block exactly for the two
storage classes. -/
theorem template_sign_decrypt_restricted_symmetric
    (object_attrs asym : Nat) (kt : Tpm2dKeyType)
    (rsa0 : RsaDetail) (ecc0 : EccDetail) :
    Nat.testBit (tpm2_public_area_helper asym object_attrs kt rsa0 ecc0).objectAttributes 18
      = isSigningKey kt ∧
    Nat.testBit (tpm2_public_area_helper asym object_attrs kt rsa0 ecc0).objectAttributes 17
      = !(isSigningKey kt) ∧
    Nat.testBit (tpm2_public_area_helper asym object_attrs kt rsa0 ecc0).objectAttributes 16
      = isRestrictedKey kt ∧
    ((tpm2_fill_rsa_details rsa0 kt).symAlgorithm ≠ TPM_ALG_NULL ↔ kt = .storage_r) ∧
    ((tpm2_fill_ecc_details ecc0 kt).symAlgorithm ≠ TPM_ALG_NULL ↔ isStorageKey kt = true) := by
  cases kt <;>
    simp [tpm2_public_area_helper, tpm2_fill_rsa_details, tpm2_fill_ecc_details,
      clr32, isSigningKey, isRestrictedKey, isStorageKey,
      Nat.testBit_or, Nat.testBit_and, testBit_attr_constants,
      TPM_ALG_AES, TPM_ALG_NULL]

/-- C3 counterexample: the claim states the primary-key template always
includes restricted and decrypt and excludes sign, regardless of the
requested class.  For the signing-unrestricted class the template built by
tpm2_createprimary_asym has sign (bit 18) set and decrypt (bit 17) and
restricted (bit 16) clear: the generic builder's class switch runs after
the primary override and wins. -/
theorem createprimary_override_refuted :
    Nat.testBit (tpm2_createprimary_public_area TPM_ALG_RSA .signing_u rsaDetail0
        eccDetail0).objectAttributes 18 = true ∧
    Nat.testBit (tpm2_createprimary_public_area TPM_ALG_RSA .signing_u rsaDetail0
        eccDetail0).objectAttributes 17 = false ∧
    Nat.testBit (tpm2_createprimary_public_area TPM_ALG_RSA .signing_u rsaDetail0
        eccDetail0).objectAttributes 16 = false := by
  decide

/-- C3 (amended): the template sent by tpm2_createprimary_asym always
carries NODA (bit 10), fixedTPM (bit 1) and fixedParent (bit 4), which the
generic builder never touches; its sign (18), decrypt (17) and restricted
(16) bits follow the requested class's split, because
tpm2_public_area_helper's class switch is applied after, and overrides,
the primary-key attribute seed - the forced restricted-decrypt survives
only for the storage-restricted class. -/
theorem createprimary_attributes (asym : Nat) (kt : Tpm2dKeyType)
    (rsa0 : RsaDetail) (ecc0 : EccDetail) :
    Nat.testBit (tpm2_createprimary_public_area asym kt rsa0 ecc0).objectAttributes 10 = true ∧
    Nat.testBit (tpm2_createprimary_public_area asym kt rsa0 ecc0).objectAttributes 1 = true ∧
    Nat.testBit (tpm2_createprimary_public_area asym kt rsa0 ecc0).objectAttributes 4 = true ∧
    Nat.testBit (tpm2_createprimary_public_area asym kt rsa0 ecc0).objectAttributes 18
      = isSigningKey kt ∧
    Nat.testBit (tpm2_createprimary_public_area asym kt rsa0 ecc0).objectAttributes 17
      = !(isSigningKey kt) ∧
    Nat.testBit (tpm2_createprimary_public_area asym kt rsa0 ecc0).objectAttributes 16
      = isRestrictedKey kt := by
  cases kt <;>
    simp only [tpm2_createprimary_public_area, tpm2_public_area_helper,
      tpm2_createprimary_object_attrs, isSigningKey, isRestrictedKey] <;>
    decide

/-- C4: when the Quote command succeeds but the returned attestation
either fails to unmarshal or carries an extraData field different from
the qualifying-data nonce that was sent, tpm2_quote_new returns the NULL
error result (the hypotheses reproduce the argument checks that precede
the command: a valid PCR count and a convertible, size-bounded nonce). -/
theorem quote_rejects_nonce_mismatch_or_parse_failure
    (dev : QuoteDevice) (pcr : Nat) (qd : Option (List Nat)) (qbin : List Nat)
    (hpcr : pcr ≤ 23) (hqb : qualifyingBin qd = some qbin)
    (hlen : qbin.length ≤ sizeof_TPMT_HA) (hrc : dev.quoteRc = TPM_RC_SUCCESS)
    (hbad : ∀ extra, dev.unmarshal dev.quoted = some extra → qbin ≠ extra) :
    (tpm2_quote_new dev pcr qd).1 = none := by
  have h1 : ¬ (pcr > 23) := by omega
  have h2 : ¬ (sizeof_TPMT_HA < qbin.length) := by omega
  rcases hu : dev.unmarshal dev.quoted with _ | extra
  · simp [tpm2_quote_new, h1, hqb, h2, hrc, hu]
  · simp [tpm2_quote_new, h1, hqb, h2, hrc, hu, hbad extra hu]

/-- C4 witness: a concrete device whose successful Quote response
unmarshals to an extraData different from the (empty) nonce sent is
rejected. -/
theorem quote_rejects_nonce_mismatch_witness :
    (tpm2_quote_new ⟨TPM_RC_SUCCESS, [1, 2, 3], fun _ => some [9], none⟩ 0 none).1 = none := by
  refine quote_rejects_nonce_mismatch_or_parse_failure _ 0 none [] (by decide) rfl (by decide)
    rfl ?_
  intro extra h
  injection h with h2
  subst h2
  decide

/-- C5 counterexample: the claim states that for a PCR count between 0
and 23 the selection bit of each register in the range is set, placed by
the register's index.  For count 2 the built bitmap selects only register
2 (the count itself) and leaves registers 0 and 1 unselected. -/
theorem quote_pcrselect_count_as_index_refuted :
    pcrSelected (quote_pcrselect 2) 0 = false ∧
    pcrSelected (quote_pcrselect 2) 1 = false ∧
    pcrSelected (quote_pcrselect 2) 2 = true ∧
    quote_pcrselect 2 = [4, 0, 0] := by
  decide

/-- C5 (amended): for every PCR count between 1 and 23 the built
selection bitmap selects exactly the one register whose index equals the
count (bit count mod 8 of byte count div 8, ORed in count times), and for
count 0 nothing is selected - the bit placement is derived from the
count, not from each register's index. -/
theorem quote_pcrselect_single_register :
    (∀ n, n < 24 → 0 < n → ∀ r, r < 24 →
      pcrSelected (quote_pcrselect n) r = decide (r = n)) ∧
    quote_pcrselect 0 = [0, 0, 0] := by
  decide

/-- C5 witness: at count 9, register 9 is selected and register 0 is not. -/
theorem quote_pcrselect_single_register_witness :
    pcrSelected (quote_pcrselect 9) 9 = decide (9 = 9) ∧
    pcrSelected (quote_pcrselect 9) 0 = decide (0 = 9) :=
  ⟨quote_pcrselect_single_register.1 9 (by decide) (by decide) 9 (by decide),
   quote_pcrselect_single_register.1 9 (by decide) (by decide) 0 (by decide)⟩

/-- C7 counterexample: the claim states an oversized NV write fails
before any command is sent to the device.  With a device advertising a
512-byte maximum, writing 513 bytes fails with the capacity error, but
the trace already contains the GetCapability command that queried the
maximum - a command was sent to the device first. -/
theorem nv_write_capacity_sends_getcapability :
    tpm2_nv_write ⟨TPM_RC_SUCCESS, some 512, TPM_RC_SUCCESS, TPM_RC_SUCCESS, TPM_RC_SUCCESS⟩
        0x01000000 513
      = (TSS_RC_INSUFFICIENT_BUFFER, [Ev.cmdGetCapability]) ∧
    (tpm2_nv_write ⟨TPM_RC_SUCCESS, some 512, TPM_RC_SUCCESS, TPM_RC_SUCCESS, TPM_RC_SUCCESS⟩
        0x01000000 513).2 ≠ ([] : List Ev) := by
  decide

/-- C7 (amended): an NV write whose payload exceeds the advertised
maximum single-transfer size fails with the capacity error before the
NV_Write command is sent and before any authorization session is opened;
the only device command issued beforehand is the GetCapability query for
the maximum transfer size. -/
theorem nv_write_capacity_early_failure (dev : NvWriteDevice) (handle len : Nat)
    (hh : handle >>> 24 = TPM_HT_NV_INDEX)
    (hlen : tpm2_nv_get_max_buffer_size dev.getCapRc dev.getCapVal < len) :
    tpm2_nv_write dev handle len = (TSS_RC_INSUFFICIENT_BUFFER, [Ev.cmdGetCapability]) ∧
    Ev.sessionOpen ∉ (tpm2_nv_write dev handle len).2 ∧
    Ev.cmdNvWrite ∉ (tpm2_nv_write dev handle len).2 := by
  have heq : tpm2_nv_write dev handle len = (TSS_RC_INSUFFICIENT_BUFFER, [Ev.cmdGetCapability]) := by
    simp [tpm2_nv_write, hh, hlen]
  refine ⟨heq, ?_, ?_⟩ <;> rw [heq] <;> simp

/-- C7 witness. -/
theorem nv_write_capacity_early_failure_witness :
    tpm2_nv_write ⟨TPM_RC_SUCCESS, some 32, TPM_RC_SUCCESS, TPM_RC_SUCCESS, TPM_RC_SUCCESS⟩
        0x01800001 100
      = (TSS_RC_INSUFFICIENT_BUFFER, [Ev.cmdGetCapability]) ∧
    Ev.sessionOpen ∉ (tpm2_nv_write ⟨TPM_RC_SUCCESS, some 32, TPM_RC_SUCCESS, TPM_RC_SUCCESS,
        TPM_RC_SUCCESS⟩ 0x01800001 100).2 ∧
    Ev.cmdNvWrite ∉ (tpm2_nv_write ⟨TPM_RC_SUCCESS, some 32, TPM_RC_SUCCESS, TPM_RC_SUCCESS,
        TPM_RC_SUCCESS⟩ 0x01800001 100).2 :=
  nv_write_capacity_early_failure _ _ _ (by decide) (by decide)

/-- C10: for every PCR count greater than 23, tpm2_quote_new returns the
NULL error result with an empty interaction trace: no authorization
session is opened and no device command is issued. -/
theorem quote_pcr_count_limit (dev : QuoteDevice) (pcr : Nat) (qd : Option (List Nat))
    (h : 23 < pcr) :
    tpm2_quote_new dev pcr qd = (none, []) ∧
    (tpm2_quote_new dev pcr qd).2.count Ev.sessionOpen = 0 := by
  have heq : tpm2_quote_new dev pcr qd = (none, []) := by
    simp [tpm2_quote_new, h]
  exact ⟨heq, by rw [heq]; rfl⟩

/-- C10 witness: at count 24 the quote is rejected without any device
interaction. -/
theorem quote_pcr_count_limit_witness :
    tpm2_quote_new ⟨TPM_RC_SUCCESS, [], fun _ => none, none⟩ 24 none = (none, []) ∧
    (tpm2_quote_new ⟨TPM_RC_SUCCESS, [], fun _ => none, none⟩ 24 none).2.count Ev.sessionOpen
      = 0 :=
  quote_pcr_count_limit _ 24 none (by decide)

/-- C6: for NV define, NV write and NV read, once the guarded command is
reached (valid handle tag, password and capacity checks passed, session
opened), the operation's result is the primary command's error code
whenever the primary command fails, and the flush outcome otherwise - a
flush failure masks a prior success but never masks a primary failure. -/
theorem nv_error_precedence
    (dd : NvDefineDevice) (hd : Nat) (pwd : Option (List Nat))
    (dw : NvWriteDevice) (hw len : Nat)
    (dr : NvReadDevice) (hr outLen : Nat) :
    (hd >>> 24 = TPM_HT_NV_INDEX → nvPwdTooLong pwd = false → dd.startRc = TPM_RC_SUCCESS →
      (tpm2_nv_definespace dd hd pwd).1
        = if dd.defineRc ≠ TPM_RC_SUCCESS then dd.defineRc else dd.flushRc) ∧
    (hw >>> 24 = TPM_HT_NV_INDEX →
      len ≤ tpm2_nv_get_max_buffer_size dw.getCapRc dw.getCapVal →
      dw.startRc = TPM_RC_SUCCESS →
      (tpm2_nv_write dw hw len).1
        = if dw.writeRc ≠ TPM_RC_SUCCESS then dw.writeRc else dw.flushRc) ∧
    (hr >>> 24 = TPM_HT_NV_INDEX →
      tpm2_nv_get_data_size dr hr ≤ tpm2_nv_get_max_buffer_size dr.getCapRc dr.getCapVal →
      tpm2_nv_get_data_size dr hr ≤ outLen →
      dr.startRc = TPM_RC_SUCCESS →
      (tpm2_nv_read dr hr outLen).1
        = if dr.readRc ≠ TPM_RC_SUCCESS then dr.readRc else dr.flushRc) := by
  refine ⟨?_, ?_, ?_⟩
  · intro h1 h2 h3
    simp only [tpm2_nv_definespace, h1, h2, h3]
    simp [apply_ite Prod.fst]
  · intro h1 h2 h3
    have h2' : ¬ (len > tpm2_nv_get_max_buffer_size dw.getCapRc dw.getCapVal) := by omega
    simp only [tpm2_nv_write, h1]
    simp [h2', h3, apply_ite Prod.fst]
  · intro h1 h2 h3 h4
    have h2' : ¬ (tpm2_nv_get_data_size dr hr
        > tpm2_nv_get_max_buffer_size dr.getCapRc dr.getCapVal) := by omega
    have h3' : ¬ (tpm2_nv_get_data_size dr hr > outLen) := by omega
    simp only [tpm2_nv_read, h1]
    simp [h2', h3', h4, apply_ite Prod.fst]

/-- C6 witness: with concrete devices, a failing define (code 5) beats a
failing flush (code 7); a successful write surfaces the flush failure
(code 9); a failing read (code 3) beats a successful flush. -/
theorem nv_error_precedence_witness :
    (tpm2_nv_definespace ⟨TPM_RC_SUCCESS, 5, 7⟩ 0x01000000 none).1 = 5 ∧
    (tpm2_nv_write ⟨TPM_RC_SUCCESS, some 512, TPM_RC_SUCCESS, TPM_RC_SUCCESS, 9⟩
        0x01000000 100).1 = 9 ∧
    (tpm2_nv_read ⟨TPM_RC_SUCCESS, true, 8, TPM_RC_SUCCESS, some 512, TPM_RC_SUCCESS, 3,
        [1], TPM_RC_SUCCESS⟩ 0x01000000 16).1 = 3 := by
  have h := nv_error_precedence ⟨TPM_RC_SUCCESS, 5, 7⟩ 0x01000000 none
    ⟨TPM_RC_SUCCESS, some 512, TPM_RC_SUCCESS, TPM_RC_SUCCESS, 9⟩ 0x01000000 100
    ⟨TPM_RC_SUCCESS, true, 8, TPM_RC_SUCCESS, some 512, TPM_RC_SUCCESS, 3, [1],
      TPM_RC_SUCCESS⟩ 0x01000000 16
  refine ⟨?_, ?_, ?_⟩
  · have := h.1 (by decide) (by decide) rfl
    simpa using this
  · have := h.2.1 (by decide) (by decide) rfl
    simpa using this
  · have := h.2.2 (by decide) (by decide) (by decide) rfl
    simpa using this

/-! ## Hex round-trip lemmas. -/

theorem hexDigitVal_hexDigitChar : ∀ n, n < 16 → hexDigitVal (hexDigitChar n) = some n := by
  decide

theorem convert_bin_to_hex_length (bin : List Nat) :
    (convert_bin_to_hex_new bin).length = 2 * bin.length := by
  induction bin with
  | nil => rfl
  | cons b rest ih => simp [convert_bin_to_hex_new, ih]; omega

theorem hexPairsToBin_convert (bin : List Nat) (h : ∀ b ∈ bin, b < 256) :
    hexPairsToBin (convert_bin_to_hex_new bin) = some bin := by
  induction bin with
  | nil => rfl
  | cons b rest ih =>
    have hb : b < 256 := h b (by simp)
    have h1 : b / 16 < 16 := by omega
    have h2 : b % 16 < 16 := by omega
    simp [convert_bin_to_hex_new, hexPairsToBin,
      hexDigitVal_hexDigitChar _ h1, hexDigitVal_hexDigitChar _ h2,
      ih (fun x hx => h x (by simp [hx]))]
    omega

theorem isLowerHexDigit_spec (c : Nat) (h : isLowerHexDigit c) :
    ∃ v, hexDigitVal c = some v ∧ v < 16 ∧ hexDigitChar v = c := by
  rcases h with ⟨h1, h2⟩ | ⟨h1, h2⟩
  · refine ⟨c - 48, ?_, by omega, ?_⟩
    · rw [hexDigitVal, if_pos ⟨h1, h2⟩]
    · rw [hexDigitChar, if_pos (by omega)]; omega
  · refine ⟨c - 87, ?_, by omega, ?_⟩
    · rw [hexDigitVal, if_neg (by omega), if_pos ⟨h1, h2⟩]
    · rw [hexDigitChar, if_neg (by omega)]; omega

theorem hexPairsToBin_lower :
    ∀ hex, (∀ c ∈ hex, isLowerHexDigit c) → hex.length % 2 = 0 →
      ∃ bin, hexPairsToBin hex = some bin ∧ convert_bin_to_hex_new bin = hex := by
  intro hex
  induction hex using hexPairsToBin.induct with
  | case1 => intro _ _; exact ⟨[], rfl, rfl⟩
  | case2 c1 c2 rest ih =>
    intro hall hlen
    obtain ⟨v1, hv1, hv1lt, hc1⟩ := isLowerHexDigit_spec c1 (hall c1 (by simp))
    obtain ⟨v2, hv2, hv2lt, hc2⟩ := isLowerHexDigit_spec c2 (hall c2 (by simp))
    obtain ⟨bin, hbin, hconv⟩ := ih (fun x hx => hall x (by simp [hx])) (by simp at hlen ⊢; omega)
    refine ⟨(16 * v1 + v2) :: bin, ?_, ?_⟩
    · simp [hexPairsToBin, hv1, hv2, hbin]
    · have e1 : (16 * v1 + v2) / 16 = v1 := by omega
      have e2 : (16 * v1 + v2) % 16 = v2 := by omega
      simp [convert_bin_to_hex_new, e1, e2, hc1, hc2, hconv]
  | case3 c =>
    intro _ hlen
    simp at hlen

/-- C8 counterexample: the claim states the hex-binary conversion is a
round-trip identity for every even-length input.  The even-length input
consisting of the two characters A (65) and B (66) decodes successfully
to the byte 0xab (171), but re-encoding yields the lowercase characters a
(97) and b (98), not the original input. -/
theorem hex_roundtrip_uppercase_refuted :
    convert_hex_to_bin_new [65, 66] = some [171] ∧
    convert_bin_to_hex_new [171] = [97, 98] ∧
    ([97, 98] : List Nat) ≠ [65, 66] := by
  decide

/-- C8 (amended): decoding then re-encoding is the identity on every
even-length string of decimal digits and lowercase hex letters - the
characters convert_bin_to_hex_new can produce - and encoding then
decoding is the identity on every byte sequence; an odd-length hex string
is decoded with an implicit leading zero nibble, so the string abc
(97, 98, 99) decodes to the two bytes 0x0a and 0xbc. -/
theorem hex_bin_roundtrip :
    (∀ bin, (∀ b ∈ bin, b < 256) →
      convert_hex_to_bin_new (convert_bin_to_hex_new bin) = some bin) ∧
    (∀ hex, (∀ c ∈ hex, isLowerHexDigit c) → hex.length % 2 = 0 →
      ∃ bin, convert_hex_to_bin_new hex = some bin ∧ convert_bin_to_hex_new bin = hex) ∧
    convert_hex_to_bin_new [97, 98, 99] = some [10, 188] := by
  refine ⟨?_, ?_, by decide⟩
  · intro bin h
    have hlen : (convert_bin_to_hex_new bin).length % 2 = 0 := by
      simp [convert_bin_to_hex_length, Nat.mul_mod_right]
    rw [convert_hex_to_bin_new.eq_def, if_neg (by omega)]
    exact hexPairsToBin_convert bin h
  · intro hex hall hlen
    obtain ⟨bin, hbin, hconv⟩ := hexPairsToBin_lower hex hall hlen
    exact ⟨bin, by rw [convert_hex_to_bin_new.eq_def, if_neg (by omega)]; exact hbin, hconv⟩

/-- C8 witness: the bin-hex-bin round trip at a concrete byte sequence
and the hex-bin-hex round trip at the concrete lowercase string ab. -/
theorem hex_bin_roundtrip_witness :
    convert_hex_to_bin_new (convert_bin_to_hex_new [171, 0, 255]) = some [171, 0, 255] ∧
    (∃ bin, convert_hex_to_bin_new [97, 98] = some bin ∧
      convert_bin_to_hex_new bin = [97, 98]) :=
  ⟨hex_bin_roundtrip.1 [171, 0, 255] (by decide),
   hex_bin_roundtrip.2.1 [97, 98] (by decide) (by decide)⟩

/-- Accumulation-loop invariant: with a device whose GetRandom responses
always succeed, never exceed the requested count, and contribute at least
one byte when at least one byte is requested, the loop reaches the target
without exhausting a fuel of the remaining shortfall, and lands exactly
on the requested total (each response is bounded by the remaining
shortfall, so the buffer never overshoots). -/
theorem getrandom_go_success (dev : RandDevice) (N : Nat)
    (hok : ∀ k req, (dev.getRandom k req).1 = TPM_RC_SUCCESS)
    (hle : ∀ k req, (dev.getRandom k req).2.length ≤ req)
    (hpos : ∀ k req, 0 < req → 1 ≤ (dev.getRandom k req).2.length) :
    ∀ fuel k recv buf, recv < N → N - recv ≤ fuel →
      ∃ bs evs, tpm2_getrandom_go dev N fuel k recv buf
          = some (TPM_RC_SUCCESS, buf ++ bs, evs) ∧ bs.length = N - recv := by
  intro fuel
  induction fuel with
  | zero => intro k recv buf h1 h2; omega
  | succ fuel ih =>
    intro k recv buf h1 h2
    have hrc := hok k (N - recv)
    have hlen := hle k (N - recv)
    have hmin := hpos k (N - recv) (by omega)
    by_cases hcase : recv + (dev.getRandom k (N - recv)).2.length < N
    · obtain ⟨bs2, evs2, heq, hlen2⟩ :=
        ih (k + 1) (recv + (dev.getRandom k (N - recv)).2.length)
          (buf ++ (dev.getRandom k (N - recv)).2) hcase (by omega)
      refine ⟨(dev.getRandom k (N - recv)).2 ++ bs2, .cmdGetRandom :: evs2, ?_, ?_⟩
      · simp only [tpm2_getrandom_go, hrc]
        simp only [TPM_RC_SUCCESS] at heq ⊢
        simp [hcase, heq]
      · simp; omega
    · refine ⟨(dev.getRandom k (N - recv)).2, [.cmdGetRandom], ?_, by omega⟩
      simp only [tpm2_getrandom_go, hrc]
      simp only [TPM_RC_SUCCESS]
      simp [hcase]

/-- C9: for every requested length N, against a device whose session
opens successfully and whose GetRandom responses all succeed, return at
most the requested count, and return at least one byte whenever at least
one byte is requested (the claim's hypothesis that every successful
response contributes at least one byte, together with the device contract
that a response never exceeds the request), tpm2_getrandom_new terminates
within a fuel of N+1 loop iterations and returns a buffer of exactly N
bytes, accumulated across the successive responses. -/
theorem getrandom_returns_exact_length (dev : RandDevice) (N : Nat)
    (hstart : dev.startRc = TPM_RC_SUCCESS)
    (hok : ∀ k req, (dev.getRandom k req).1 = TPM_RC_SUCCESS)
    (hle : ∀ k req, (dev.getRandom k req).2.length ≤ req)
    (hpos : ∀ k req, 0 < req → 1 ≤ (dev.getRandom k req).2.length) :
    ∃ buf evs, tpm2_getrandom_new dev N (N + 1) = some (some buf, evs) ∧ buf.length = N := by
  rcases Nat.eq_zero_or_pos N with h0 | hN
  · subst h0
    have hrc := hok 0 0
    have hlen := hle 0 0
    have hempty : (dev.getRandom 0 0).2 = [] := by
      cases hx : (dev.getRandom 0 0).2 with
      | nil => rfl
      | cons a l => rw [hx] at hlen; simp at hlen
    refine ⟨(dev.getRandom 0 0).2, [.sessionOpen, .cmdGetRandom, .sessionFlush], ?_, ?_⟩
    · simp only [tpm2_getrandom_new, hstart]
      simp only [tpm2_getrandom_go, hrc]
      simp only [TPM_RC_SUCCESS]
      simp [hempty]
    · simp [hempty]
  · obtain ⟨bs, evs, heq, hlen⟩ :=
      getrandom_go_success dev N hok hle hpos (N + 1) 0 0 [] hN (by omega)
    refine ⟨bs, .sessionOpen :: (evs ++ [.sessionFlush]), ?_, by omega⟩
    simp only [tpm2_getrandom_new, hstart]
    rw [show ([] : List Nat) ++ bs = bs from rfl] at heq
    simp [heq]

/-- C9 witness: a device returning at most two bytes per response
delivers exactly five bytes for a five-byte request, across three
responses. -/
theorem getrandom_returns_exact_length_witness :
    ∃ buf evs,
      tpm2_getrandom_new
        ⟨TPM_RC_SUCCESS, fun _ req => (TPM_RC_SUCCESS, List.replicate (min req 2) 7),
          TPM_RC_SUCCESS⟩ 5 6 = some (some buf, evs) ∧ buf.length = 5 :=
  getrandom_returns_exact_length _ 5 rfl (fun _ _ => rfl)
    (fun _ req => by simp)
    (fun _ req h => by simp; omega)
